import Mathlib

/-!
Shallow embedding of the eFootball tournament backend core
(fixture generation, match-result engine, standings/leaderboard
computation) and verification of the specification claims.

Sources embedded:
* `utils/fixtureGenerator.js` (`generateLeagueFixtures`,
  `generateKnockoutFixtures`, `getRoundName`,
  `updateTournamentLeaderboard`, `generateNextKnockoutRound`)
* `models/Match.js` (`submitScore`, `verifyResult`)
* `models/Tournament.js` (`addParticipant`, the pre-save status hook)
* `models/Leaderboard.js` (`updatePlayerStats`, `updateStatsForMatch`,
  the pre-save winRate hook)
* `controllers/matchController.js` (`MatchController.submitScore`,
  `MatchController.updatePlayerStats`)

Player/user ids are modelled as `Nat`, JS numbers as `Int`/`Nat`
(no overflow is relevant at the scales involved), JS `null`
as `Option.none`, and `Date` values as `Nat` instants supplied
explicitly.  Calls of `Math.random()` are modelled by explicitly
threaded streams of values (`List Nat` for bye indices,
`List ℚ` for the `Math.random() - 0.5` comparator draws), so a run
of the embedded code corresponds to one possible execution of the
JS code under one possible sequence of random draws.
-/

namespace EFootball

/-! ## League fixtures — `generateLeagueFixtures` (utils/fixtureGenerator.js)

A generated match draft.  Only the fields the league generator writes
are kept (`tournament`/`status` are constant over the output).
-/

structure LMatch where
  round : String
  matchNumber : Nat
  player1 : Nat
  player2 : Nat
  deriving Repr, DecidableEq

/-- The rotation step `teams = [teams[0], teams[teams.length - 1],
...teams.slice(1, -1)]` performed after each round. -/
def rotateTeams (teams : List Nat) : List Nat :=
  match teams with
  | [] => []
  | t :: rest => t :: (t :: rest).getLast (by simp) :: rest.dropLast

/-- The inner `for (match = 0; match < matchesPerRound; match++)` loop of
`generateLeagueFixtures`: `home = (round + match) % (n - 1)`,
`away = (n - 1 - match + round) % (n - 1)` except that `away = n - 1`
when `match === 0`.  `startNum` is `matches.length` when the round
begins, so the pushed match gets `matchNumber = matches.length + 1`. -/
def leagueRound (n round startNum : Nat) (teams : List Nat) : List LMatch :=
  (List.range (n / 2)).map (fun m =>
    let home := (round + m) % (n - 1)
    let away := if m = 0 then n - 1 else (n - 1 - m + round) % (n - 1)
    { round := s!"Round {round + 1}"
      matchNumber := startNum + m + 1
      player1 := teams.getD home 0
      player2 := teams.getD away 0 })

/-- `generateLeagueFixtures(tournament, participants, matches)`:
`rounds = participants.length - 1` iterations of `leagueRound`, rotating
the `teams` array after each round. -/
def generateLeagueFixtures (participants : List Nat) : List LMatch :=
  let n := participants.length
  ((List.range (n - 1)).foldl
    (fun (acc : List LMatch × List Nat) round =>
      (acc.1 ++ leagueRound n round acc.1.length acc.2, rotateTeams acc.2))
    ([], participants)).1

/-! ## Round names — `getRoundName(round, participantCount)` -/

/-- The `switch (participantCount)` table of `getRoundName`.  Note the
name depends on the round number as well for counts 4, 8 and 16, and
the default branch appends `(Top N)` for counts above 4. -/
def getRoundName (round participantCount : Nat) : String :=
  if participantCount = 2 then "Final"
  else if participantCount = 4 then
    if round = 1 then "Semi-Finals" else "Final"
  else if participantCount = 8 then
    if round = 1 then "Quarter-Finals"
    else if round = 2 then "Semi-Finals"
    else "Final"
  else if participantCount = 16 then
    if round = 1 then "Round of 16"
    else if round = 2 then "Quarter-Finals"
    else if round = 3 then "Semi-Finals"
    else "Final"
  else if participantCount ≤ 4 then s!"Round {round}"
  else if participantCount ≤ 8 then s!"Round {round} (Top {participantCount})"
  else s!"Round {round} (Top {participantCount})"

/-! ## Knockout fixtures — `generateKnockoutFixtures`

Working round lists are `List (Option Nat)`: the JS code seeds
`currentRound` with real player ids and pushes `null` placeholders for
winners of not-yet-played matches, so elements may be `null`.  A match
draft records the `player1.user` / `player2` fields (`player2` is the
whole sub-document, set to `null` for a bye, otherwise `{ user: p }`),
the status and the `result` sub-document. -/

structure KResult where
  winner : Option Nat
  isDraw : Bool
  confirmedBy : Option Nat
  deriving Repr, DecidableEq

structure KMatch where
  round : String
  matchNumber : Nat
  /-- the `player1.user` value (possibly a `null` placeholder) -/
  player1 : Option Nat
  /-- the `player2` sub-document: `none` models `player2: null` -/
  player2 : Option Nat
  status : String
  result : Option KResult
  deriving Repr, DecidableEq

/-- The `for (i = 0; i < currentRound.length; i += 2)` pairing loop.
`player2 = currentRound[i + 1] || null` is a bye when the element is
`null` or missing; a bye match is immediately `completed` with
`result.winner = player1` confirmed by the organizer, and `player1` is
pushed to `nextRound`; a real match pushes a `null` placeholder.
Returns (pushed matches, nextRound contributions, next matchNumber). -/
def pairOff (organizer : Nat) (roundName : String) :
    List (Option Nat) → Nat → List KMatch × List (Option Nat) × Nat
  | [], mn => ([], [], mn)
  | [p1] , mn =>
    ([{ round := roundName, matchNumber := mn, player1 := p1, player2 := none,
        status := "completed",
        result := some ⟨p1, false, some organizer⟩ }], [p1], mn + 1)
  | p1 :: p2 :: rest, mn =>
    let m : KMatch :=
      if p2.isSome then
        { round := roundName, matchNumber := mn, player1 := p1, player2 := p2,
          status := "scheduled", result := none }
      else
        { round := roundName, matchNumber := mn, player1 := p1, player2 := none,
          status := "completed", result := some ⟨p1, false, some organizer⟩ }
    let next := if p2.isSome then (none : Option Nat) else p1
    let r := pairOff organizer roundName rest (mn + 1)
    (m :: r.1, next :: r.2.1, r.2.2)

/-- The `while (currentRound.length > 1)` loop of
`generateKnockoutFixtures`.  When the round has odd length a bye index
`Math.floor(Math.random() * len)` (modelled by the head of the `rng`
stream reduced modulo the length) is spliced out and that element is
pushed onto the head of `nextRound` before pairing.  The loop is
expressed with an explicit iteration bound: each iteration maps a
round of `n ≥ 2` players to `⌈n/2⌉ < n` (plus at most one spliced-out
bye, still `< n` in total), so `cur.length` iterations always suffice
and the `fuel = 0` case is unreachable from `generateKnockoutFixtures`.
-/
def knockoutLoop (organizer : Nat) : Nat → List (Option Nat) →
    Nat → Nat → List Nat → List KMatch
  | 0, _, _, _, _ => []
  | f + 1, cur, round, mn, rng =>
    if cur.length ≤ 1 then []
    else if cur.length % 2 = 1 then
      let idx := rng.headD 0 % cur.length
      let bye := cur.getD idx none
      let r := pairOff organizer (getRoundName round cur.length)
        (cur.eraseIdx idx) mn
      r.1 ++ knockoutLoop organizer f (bye :: r.2.1) (round + 1) r.2.2 rng.tail
    else
      let r := pairOff organizer (getRoundName round cur.length) cur mn
      r.1 ++ knockoutLoop organizer f r.2.1 (round + 1) r.2.2 rng

/-- `generateKnockoutFixtures(tournament, participants, matches)`:
runs the round loop starting from the (already shuffled) participant
list, `round = 1`, `matchNumber = 1`; the iteration bound
`participants.length` dominates the loop count since every iteration
strictly shrinks the working list. -/
def generateKnockoutFixtures (organizer : Nat) (participants : List Nat)
    (rng : List Nat) : List KMatch :=
  knockoutLoop organizer participants.length (participants.map some) 1 1 rng

/-! ## Knockout progression driver — `generateNextKnockoutRound` -/

/-- `parseInt(s) || 0` as applied to the round labels in play: JS
`parseInt` parses a leading run of decimal digits and yields `NaN`
(hence `0` after `|| 0`) when the string does not start with a digit.
None of the labels produced by the generators carry leading whitespace
or signs, so taking the leading digit run is faithful. -/
def jsParseIntOr0 (s : String) : Nat :=
  let ds := s.toList.takeWhile Char.isDigit
  if ds.isEmpty then 0
  else ds.foldl (fun n c => n * 10 + (c.toNat - 48)) 0

/-- The populated tournament document as seen by
`generateNextKnockoutRound`.  `winner` is the stored
`tournament.winner` field; assigning `winners[0]` of an empty winners
array (JS `undefined`) and assigning a `null` entry are both modelled
as `none`. -/
structure KTournament where
  organizer : Nat
  /-- the `matches` array (`matches` is reserved in Lean) -/
  matchList : List KMatch
  status : String
  winner : Option Nat
  deriving Repr, DecidableEq

/-- The winner-collection loop of `generateNextKnockoutRound`:
`if (match.result && match.result.winner) winners.push(...)` else the
bye check `if (match.player1 && !match.player2)` pushes
`match.player1.user`.  In the generated match drafts the `player1`
sub-document is always present, so the check is on `player2` being
`null`; a pushed `player1.user` may itself be a `null` placeholder,
hence winners are `Option Nat` values. -/
def collectWinners (ms : List KMatch) : List (Option Nat) :=
  ms.foldl (fun ws m =>
    match m.result with
    | some r =>
      match r.winner with
      | some w => ws ++ [some w]
      | none => if m.player2.isNone then ws ++ [m.player1] else ws
    | none => if m.player2.isNone then ws ++ [m.player1] else ws) []

/-- Pair consecutive winners into next-round matches:
`for (i = 0; i < winners.length; i += 2) if (i + 1 < winners.length)`
creates a scheduled match; a trailing unpaired winner creates
nothing. -/
def pairWinners (nextRound : String) :
    List (Option Nat) → Nat → List KMatch
  | [], _ => []
  | [_], _ => []
  | w1 :: w2 :: rest, mn =>
    { round := nextRound, matchNumber := mn, player1 := w1, player2 := w2,
      status := "scheduled", result := none } :: pairWinners nextRound rest (mn + 1)

/-- `generateNextKnockoutRound(tournamentId)`.
`lastRound = Math.max(...matches.map(m => parseInt(m.round) || 0))`
(`foldl max 0` coincides with `Math.max` on the non-empty lists of
non-negative parse results in play); winners are collected from the
matches whose `round` label equals `lastRound.toString()`; an odd
winner count greater than one spawns a bye match for a random winner
(stream-supplied index, as in generation); remaining winners are
paired; if at most one winner remains the tournament is marked
`completed` with `winner = winners[0]`. -/
def generateNextKnockoutRound (t : KTournament) (rng : List Nat) : KTournament :=
  let lastRound := (t.matchList.map (fun m => jsParseIntOr0 m.round)).foldl max 0
  let nextRound := lastRound + 1
  let lastRoundMatches := t.matchList.filter (fun m => m.round == toString lastRound)
  let winners := collectWinners lastRoundMatches
  let (winners, byeMatches) :=
    if winners.length > 1 ∧ winners.length % 2 = 1 then
      let byeIndex := rng.headD 0 % winners.length
      let byePlayer := winners.getD byeIndex none
      let byeMatch : KMatch :=
        { round := toString nextRound, matchNumber := t.matchList.length + 1,
          player1 := byePlayer, player2 := none, status := "completed",
          result := some ⟨byePlayer, false, some t.organizer⟩ }
      (winners.eraseIdx byeIndex ++ [byePlayer], [byeMatch])
    else (winners, [])
  let newMatches := pairWinners (toString nextRound) winners
    (t.matchList.length + byeMatches.length + 1)
  let t' := { t with matchList := t.matchList ++ byeMatches ++ newMatches }
  if winners.length ≤ 1 then
    { t' with status := "completed", winner := (winners.getD 0 none) }
  else t'

/-! ## Match result engine — models/Match.js

A match document keeps, per player slot, the fields the engine reads
and writes (`goals`/cards/substitution event lists are write-only
attachments and are omitted).  Persistence is modelled explicitly: an
operation returns the list of documents passed to `save()` in order
(the stored state after the operation is the last element, or the
original document if the list is empty) together with its outcome.
JS `null` scores are `none`; `NaN` scores are not modelled. -/

structure PlayerSlot where
  user : Nat
  score : Option Int
  screenshot : Option String
  confirmed : Bool
  deriving Repr, DecidableEq

structure ResultRec where
  winner : Option Nat
  loser : Option Nat
  isDraw : Bool
  confirmedBy : Option Nat
  confirmedAt : Option Nat
  deriving Repr, DecidableEq

structure MatchDoc where
  status : String
  player1 : PlayerSlot
  player2 : PlayerSlot
  result : ResultRec
  deriving Repr, DecidableEq

def errScoresMissing : String := "Both players must have submitted scores"

def errAlreadyCompleted : String := "Match is already completed"

def errInvalidPlayer : String := "Invalid player specified"

def errNotAPlayer : String := "You are not a player in this match"

def errLeaderboardTypeError : String :=
  "TypeError: this.updateTournamentLeaderboard is not a function"

/-- `matchSchema.methods.verifyResult(adminId)`: throws before any
mutation when either score is `null`; otherwise resolves
winner/loser/draw from the two scores, stamps `confirmedBy = adminId`
(`none` when the method is invoked without an argument) and
`confirmedAt = new Date()` (the `now` parameter), sets the status to
`completed` and saves. -/
def verifyResultRun (m : MatchDoc) (adminId : Option Nat) (now : Nat) :
    List MatchDoc × Except String MatchDoc :=
  match m.player1.score, m.player2.score with
  | some s1, some s2 =>
    let res :=
      if s1 > s2 then
        { m.result with winner := some m.player1.user,
                        loser := some m.player2.user, isDraw := false }
      else if s2 > s1 then
        { m.result with winner := some m.player2.user,
                        loser := some m.player1.user, isDraw := false }
      else { m.result with isDraw := true }
    let m' := { m with
      result := { res with confirmedBy := adminId, confirmedAt := some now },
      status := "completed" }
    ([m'], Except.ok m')
  | _, _ => ([], Except.error errScoresMissing)

/-- The tail of `matchSchema.methods.submitScore` after the slot
mutation: when both slots are confirmed, equal scores auto-invoke
`this.verifyResult()` (no admin argument; its `save` happens first and
the method then returns `this.save()`, saving the same document again),
differing scores set the status to `disputed`; the method finishes with
`this.save()`. -/
def afterSubmit (m : MatchDoc) (now : Nat) :
    List MatchDoc × Except String MatchDoc :=
  if m.player1.confirmed ∧ m.player2.confirmed then
    if m.player1.score = m.player2.score then
      match verifyResultRun m none now with
      | (saves, Except.ok v) => (saves ++ [v], Except.ok v)
      | (saves, Except.error e) => (saves, Except.error e)
    else
      let m' := { m with status := "disputed" }
      ([m'], Except.ok m')
  else ([m], Except.ok m)

def slot1 : String := "player1"

def slot2 : String := "player2"

/-- `matchSchema.methods.submitScore(player, score, screenshot)`:
throws when the match is already `completed` or the slot name is
neither `player1` nor `player2`; otherwise records score, confirmation
flag and optional screenshot on that slot and proceeds as
`afterSubmit`. -/
def submitScoreRun (m : MatchDoc) (player : String) (score : Option Int)
    (screenshot : Option String) (now : Nat) :
    List MatchDoc × Except String MatchDoc :=
  if m.status == "completed" then ([], Except.error errAlreadyCompleted)
  else if player == slot1 then
    afterSubmit { m with player1 :=
      { m.player1 with
        score := score
        confirmed := true
        screenshot := if screenshot.isSome then screenshot
                      else m.player1.screenshot } } now
  else if player == slot2 then
    afterSubmit { m with player2 :=
      { m.player2 with
        score := score
        confirmed := true
        screenshot := if screenshot.isSome then screenshot
                      else m.player2.screenshot } } now
  else ([], Except.error errInvalidPlayer)

/-- `MatchController.submitScore` (controllers/matchController.js):
locates the caller's slot by user id (403 when the caller is neither
player), mutates the slot in memory, and when both slots are confirmed
with equal scores invokes `match.verifyResult(req.user.id)` — passing
the submitting user as confirmer — whose `save` persists the completed
match; the subsequent `this.updateTournamentLeaderboard(...)` call
always throws a `TypeError` (the class defines no such static method,
and as an unbound route handler `this` is not the class either), so the
handler reports failure after the verified match was already saved.
With differing scores the status becomes `disputed` and the final
`match.save()` runs. -/
def controllerSubmitScoreRun (m : MatchDoc) (callerId : Nat) (score : Int)
    (screenshot : Option String) (now : Nat) :
    List MatchDoc × Except String MatchDoc :=
  let slot := if m.player1.user = callerId then some slot1
              else if m.player2.user = callerId then some slot2
              else none
  match slot with
  | none => ([], Except.error errNotAPlayer)
  | some s =>
    let m' :=
      if s == slot1 then
        { m with player1 :=
          { m.player1 with
            score := some score
            confirmed := true
            screenshot := if screenshot.isSome then screenshot
                          else m.player1.screenshot } }
      else
        { m with player2 :=
          { m.player2 with
            score := some score
            confirmed := true
            screenshot := if screenshot.isSome then screenshot
                          else m.player2.screenshot } }
    if m'.player1.confirmed ∧ m'.player2.confirmed then
      if m'.player1.score = m'.player2.score then
        match verifyResultRun m' (some callerId) now with
        | (saves, Except.ok _) =>
          (saves, Except.error errLeaderboardTypeError)
        | (saves, Except.error e) => (saves, Except.error e)
      else
        let m'' := { m' with status := "disputed" }
        ([m''], Except.ok m'')
    else ([m'], Except.ok m')

/-! ## Tournament document — models/Tournament.js

Stored tournament fields read by `addParticipant` and the pre-save
status hook.  Participant sub-documents carry the fields written on
registration (`joinedAt` is a server default never read by the core
and is omitted). -/

structure PStats where
  matchesPlayed : Nat
  wins : Nat
  draws : Nat
  losses : Nat
  goalsFor : Int
  goalsAgainst : Int
  points : Int
  deriving Repr, DecidableEq

def zeroPStats : PStats :=
  { matchesPlayed := 0, wins := 0, draws := 0, losses := 0,
    goalsFor := 0, goalsAgainst := 0, points := 0 }

structure TParticipant where
  player : Nat
  status : String
  seed : Nat
  stats : PStats
  deriving Repr, DecidableEq

structure Tournament where
  status : String
  tournamentStart : Option Nat
  tournamentEnd : Option Nat
  capacity : Nat
  format : String
  participants : List TParticipant
  deriving Repr, DecidableEq

def errAlreadyRegistered : String :=
  "Player already registered for this tournament"

def errTournamentFull : String := "Tournament is full"

/-- The `participantCount` virtual: participants whose status is
`registered`. -/
def participantCount (t : Tournament) : Nat :=
  (t.participants.filter (fun p => p.status == "registered")).length

/-- `tournamentSchema.methods.addParticipant(userId)`: rejects a
player already present in the participant list (any status), rejects
when the registered count has reached capacity, otherwise pushes a
fresh `registered` entry with `seed = participantCount + 1` and zeroed
tournament stats.  The un-awaited `this.generateFixtures()` side call
touches only the match list and status, never the participant list;
an error return models a thrown exception, before which nothing is
saved. -/
def addParticipant (t : Tournament) (userId : Nat) :
    Except String Tournament :=
  if t.participants.any (fun p => p.player = userId) then
    Except.error errAlreadyRegistered
  else if participantCount t ≥ t.capacity then
    Except.error errTournamentFull
  else
    Except.ok { t with participants := t.participants ++
      [{ player := userId, status := "registered",
         seed := participantCount t + 1, stats := zeroPStats }] }

/-- The `tournamentSchema.pre('save')` hook (second schema variant,
the one exported): unconditionally forces `status = 'active'` once
`now >= tournamentStart` and `status = 'completed'` once
`now > tournamentEnd`, regardless of the current status. -/
def tournamentPreSave (t : Tournament) (now : Nat) : Tournament :=
  let t1 :=
    match t.tournamentStart with
    | some s => if now ≥ s then { t with status := "active" } else t
    | none => t
  match t1.tournamentEnd with
  | some e => if now > e then { t1 with status := "completed" } else t1
  | none => t1

/-! ## Tournament standings recompute — `updateTournamentLeaderboard`

The function operates on a populated tournament: each participant
carries the populated player's `efootballId`, and each match carries
its two players' ids and scores plus the `result` sub-document.
The `headToHead` tie-breaker returns `Math.random() - 0.5`; those
draws are modelled by an explicit stream of rational values consumed
left to right, and the sort is a stable comparator-driven insertion
sort (an element is placed before the first earlier element against
which the comparator returns a negative value), modelling the
stable `Array.prototype.sort`. -/

structure PParticipant where
  player : Nat
  efootballId : String
  stats : PStats
  deriving Repr, DecidableEq

structure TResult where
  winner : Option Nat
  isDraw : Bool
  deriving Repr, DecidableEq

structure TMatch where
  status : String
  p1User : Nat
  p1Score : Option Int
  p2User : Nat
  p2Score : Option Int
  result : Option TResult
  deriving Repr, DecidableEq

structure LBSettings where
  pointsForWin : Int
  pointsForDraw : Int
  pointsForLoss : Int
  tiebreakers : List String
  deriving Repr, DecidableEq

/-- The schema defaults of `leaderboardSettings`. -/
def defaultLBSettings : LBSettings :=
  { pointsForWin := 3, pointsForDraw := 1, pointsForLoss := 0,
    tiebreakers := ["points", "goalDifference", "goalsFor", "headToHead"] }

structure PopTournament where
  participants : List PParticipant
  matchList : List TMatch
  settings : LBSettings
  deriving Repr, DecidableEq

def listModify (l : List α) (i : Nat) (f : α → α) : List α :=
  l.mapIdx (fun j x => if j = i then f x else x)

/-- One step of the completed-match fold: both participants are looked
up by player id (`find`); if either is absent the match is skipped.
Goals use `score || 0`; wins/draws/losses and points follow
`result.isDraw` / `result.winner`, with a winner equal to neither
participant credited as a player2 win, as in the source's
`else` branch. -/
def applyMatch (ls : LBSettings) (ps : List PParticipant) (m : TMatch) :
    List PParticipant :=
  match m.result with
  | some r =>
    if m.status == "completed" then
      match ps.findIdx? (fun p => p.player = m.p1User),
            ps.findIdx? (fun p => p.player = m.p2User) with
      | some i, some j =>
        let s1 := m.p1Score.getD 0
        let s2 := m.p2Score.getD 0
        let upd1 : PStats → PStats := fun st =>
          let st := { st with
            matchesPlayed := st.matchesPlayed + 1
            goalsFor := st.goalsFor + s1
            goalsAgainst := st.goalsAgainst + s2 }
          if r.isDraw then
            { st with draws := st.draws + 1, points := st.points + ls.pointsForDraw }
          else
            match r.winner with
            | some w =>
              if w = m.p1User then
                { st with wins := st.wins + 1, points := st.points + ls.pointsForWin }
              else
                { st with losses := st.losses + 1, points := st.points + ls.pointsForLoss }
            | none => st
        let upd2 : PStats → PStats := fun st =>
          let st := { st with
            matchesPlayed := st.matchesPlayed + 1
            goalsFor := st.goalsFor + s2
            goalsAgainst := st.goalsAgainst + s1 }
          if r.isDraw then
            { st with draws := st.draws + 1, points := st.points + ls.pointsForDraw }
          else
            match r.winner with
            | some w =>
              if w = m.p1User then
                { st with losses := st.losses + 1, points := st.points + ls.pointsForLoss }
              else
                { st with wins := st.wins + 1, points := st.points + ls.pointsForWin }
            | none => st
        listModify (listModify ps i (fun p => { p with stats := upd1 p.stats }))
          j (fun p => { p with stats := upd2 p.stats })
      | _, _ => ps
    else ps
  | none => ps

/-- `a.efootballId.localeCompare(b.efootballId)` modelled as code-point
lexicographic comparison returning a sign value. -/
def jsLocaleCompare (a b : String) : ℚ :=
  match compare a b with
  | Ordering.lt => -1
  | Ordering.eq => 0
  | Ordering.gt => 1

/-- The `for (const tiebreaker of ...tiebreakers)` loop of the
standings comparator.  `goalDifference` and `goalsFor` continue on
ties; `headToHead` unconditionally returns the next
`Math.random() - 0.5` draw from the stream; `alphabetical`
unconditionally returns the string comparison; an unrecognized entry
(such as the default list's `points`) matches no case and falls
through; an exhausted loop returns 0. -/
def tiebreakLoop (a b : PParticipant) :
    List String → List ℚ → ℚ × List ℚ
  | [], rng => (0, rng)
  | tb :: rest, rng =>
    if tb == "goalDifference" then
      let dA := a.stats.goalsFor - a.stats.goalsAgainst
      let dB := b.stats.goalsFor - b.stats.goalsAgainst
      if dA ≠ dB then (((dB - dA : Int) : ℚ), rng) else tiebreakLoop a b rest rng
    else if tb == "goalsFor" then
      if a.stats.goalsFor ≠ b.stats.goalsFor then
        (((b.stats.goalsFor - a.stats.goalsFor : Int) : ℚ), rng)
      else tiebreakLoop a b rest rng
    else if tb == "headToHead" then (rng.headD 0, rng.tail)
    else if tb == "alphabetical" then (jsLocaleCompare a.efootballId b.efootballId, rng)
    else tiebreakLoop a b rest rng

/-- The participant comparator: points descending, then the
tie-breaker loop. -/
def participantCmp (ls : LBSettings) (a b : PParticipant) (rng : List ℚ) :
    ℚ × List ℚ :=
  if a.stats.points ≠ b.stats.points then
    (((b.stats.points - a.stats.points : Int) : ℚ), rng)
  else tiebreakLoop a b ls.tiebreakers rng

/-- Stable insertion of `x` (a later element) into an already-placed
prefix, consuming comparator randomness from the stream: `x` goes
before the first element against which the comparator is negative. -/
def insertCmp (cmp : α → α → List ℚ → ℚ × List ℚ) (x : α) :
    List α → List ℚ → List α × List ℚ
  | [], rng => ([x], rng)
  | y :: ys, rng =>
    let c := cmp x y rng
    if c.1 < 0 then (x :: y :: ys, c.2)
    else
      let r := insertCmp cmp x ys c.2
      (y :: r.1, r.2)

/-- Stable comparator sort threading the randomness stream. -/
def sortCmp (cmp : α → α → List ℚ → ℚ × List ℚ) (l : List α)
    (rng : List ℚ) : List α × List ℚ :=
  l.foldl (fun acc x => insertCmp cmp x acc.1 acc.2) ([], rng)

/-- `updateTournamentLeaderboard(tournamentId)` on a populated
tournament: zero every participant's tournament stats, fold the
completed matches, then sort the participants with the
points/tie-breaker comparator (its `headToHead` case consuming the
random stream). -/
def updateTournamentLeaderboard (t : PopTournament) (rng : List ℚ) :
    PopTournament :=
  let ps := t.participants.map (fun p => { p with stats := zeroPStats })
  let ps := t.matchList.foldl (applyMatch t.settings) ps
  { t with participants := (sortCmp (participantCmp t.settings) ps rng).1 }

/-! ## Global leaderboard — models/Leaderboard.js and the controller

`Leaderboard.updatePlayerStats(playerId, matchResult, type, period)`
fetches or creates the player's entry for the scope and delegates to
`updateStatsForMatch`, whose `switch (matchResult)` recognizes the
strings `win`, `loss` and `draw`.  `MatchController.updatePlayerStats`
calls it once per player passing an OBJECT
`{ goals, isWinner, isDraw }` as `matchResult` (matching no case), and
for draws a second time with the string `draw`.  The argument is
therefore modelled as a sum of the two shapes.  `updateRanks` rewrites
only the rank fields of the scope's entries and is not needed by the
claims about per-entry stats. -/

def winString : String := "win"

def lossString : String := "loss"

def drawString : String := "draw"

inductive MatchResultArg where
  | str (s : String)
  | obj (goals : Int) (isWinner : Bool) (isDraw : Bool)
  deriving Repr, DecidableEq

structure LBEntry where
  player : Nat
  points : Nat
  wins : Nat
  losses : Nat
  draws : Nat
  totalMatches : Nat
  winRate : ℚ
  deriving Repr, DecidableEq

/-- A freshly created entry (`new this({ player, type, period })`),
all stats at their schema defaults. -/
def freshLBEntry (playerId : Nat) : LBEntry :=
  { player := playerId, points := 0, wins := 0, losses := 0, draws := 0,
    totalMatches := 0, winRate := 0 }

/-- The `leaderboardSchema.pre('save')` hook: recompute
`winRate = wins / totalMatches * 100` when any matches were played
(the rank-change part touches only rank fields, not modelled). -/
def leaderboardPreSave (e : LBEntry) : LBEntry :=
  if e.totalMatches > 0 then
    { e with winRate := ((e.wins : ℚ) / (e.totalMatches : ℚ)) * 100 }
  else e

/-- `Leaderboard.updateStatsForMatch(leaderboard, matchResult)`:
`totalMatches += 1`, then the `switch`, then `save()` (which runs the
pre-save hook). -/
def updateStatsForMatch (e : LBEntry) (matchResult : MatchResultArg) :
    LBEntry :=
  let e := { e with totalMatches := e.totalMatches + 1 }
  let e :=
    match matchResult with
    | MatchResultArg.str s =>
      if s == winString then { e with wins := e.wins + 1, points := e.points + 3 }
      else if s == lossString then { e with losses := e.losses + 1 }
      else if s == drawString then { e with draws := e.draws + 1, points := e.points + 1 }
      else e
    | MatchResultArg.obj _ _ _ => e
  leaderboardPreSave e

/-- `Leaderboard.updatePlayerStats(playerId, matchResult, ...)`:
fetch-or-create then `updateStatsForMatch`.  The stored entry for the
scope is passed as an `Option`. -/
def lbUpdatePlayerStats (existing : Option LBEntry) (playerId : Nat)
    (matchResult : MatchResultArg) : LBEntry :=
  updateStatsForMatch (existing.getD (freshLBEntry playerId)) matchResult

/-- The global-leaderboard portion of
`MatchController.updatePlayerStats` for one player of a finalized
match: one call with the object argument
`{ goals: score || 0, isWinner, isDraw }`, then for draws a second
call with the string `draw`. -/
def controllerGlobalLBUpdate (existing : Option LBEntry) (playerId : Nat)
    (score : Option Int) (isWinner isDraw : Bool) : LBEntry :=
  let e := lbUpdatePlayerStats existing playerId
    (MatchResultArg.obj (score.getD 0) isWinner isDraw)
  if isDraw then lbUpdatePlayerStats (some e) playerId (MatchResultArg.str drawString)
  else e

/-! ## Claim verification -/

/-- C1.  The round-robin claim fails on the code: for three
participants `generateLeagueFixtures` emits only `(N-1)·⌊N/2⌋ = 2`
matches (the claim demands `N(N-1)/2 = 3`), the pair `{0, 1}` never
meets, and for six participants the pair `{2, 3}` meets three times
instead of exactly once.  The doubled rotation (index arithmetic already
offset by `round` applied to an array that is itself rotated every
round) breaks the circle method the code's comments describe. -/
theorem league_generation_not_round_robin :
    generateLeagueFixtures [0, 1, 2] =
      [{ round := "Round 1", matchNumber := 1, player1 := 0, player2 := 2 },
       { round := "Round 2", matchNumber := 2, player1 := 2, player2 := 1 }]
    ∧ (generateLeagueFixtures [0, 1, 2]).length = 2
    ∧ (generateLeagueFixtures [0, 1, 2]).countP
        (fun m => (m.player1 == 0 && m.player2 == 1) ||
                  (m.player1 == 1 && m.player2 == 0)) = 0
    ∧ (generateLeagueFixtures [0, 1, 2, 3, 4, 5]).countP
        (fun m => (m.player1 == 2 && m.player2 == 3) ||
                  (m.player1 == 3 && m.player2 == 2)) = 3 := by
  refine ⟨rfl, rfl, by decide, by decide⟩

/-- A populated tournament with two participants tied on every stat
(no completed matches) under the default leaderboard settings, whose
tie-breaker list ends in `headToHead`. -/
def tiedPairTournament : PopTournament :=
  { participants :=
      [{ player := 1, efootballId := "a", stats := zeroPStats },
       { player := 2, efootballId := "b", stats := zeroPStats }],
    matchList := [],
    settings := defaultLBSettings }

/-- C2.  Standings recomputation is NOT a deterministic function of
the completed-match set and the leaderboard settings: with the default
tie-breakers the `headToHead` case returns `Math.random() - 0.5`, so
two runs from the same (empty) completed-match set order two tied
participants differently when the draw is negative versus positive.
Per-participant stats are nevertheless equal across the two runs. -/
theorem standings_recompute_depends_on_random_draw :
    (updateTournamentLeaderboard tiedPairTournament [-(1/4 : ℚ)]).participants.map
      (fun p => p.player) = [2, 1]
    ∧ (updateTournamentLeaderboard tiedPairTournament [(1/4 : ℚ)]).participants.map
      (fun p => p.player) = [1, 2]
    ∧ (updateTournamentLeaderboard tiedPairTournament [-(1/4 : ℚ)]).participants.map
        (fun p => p.stats) =
      (updateTournamentLeaderboard tiedPairTournament [(1/4 : ℚ)]).participants.map
        (fun p => p.stats) := by
  have hneg : (-(1/4 : ℚ)) < 0 := by norm_num
  have hpos : ¬((1/4 : ℚ) < 0) := by norm_num
  refine ⟨?_, ?_, ?_⟩
  all_goals
    simp [updateTournamentLeaderboard, tiedPairTournament, defaultLBSettings,
      zeroPStats, sortCmp, insertCmp, participantCmp, tiebreakLoop,
      jsLocaleCompare, applyMatch, hneg, hpos]
  all_goals norm_num

/-- A knockout tournament whose single generated match (the `Final`)
has been completed with player 1 beating player 2. -/
def completedFinalOnly : KTournament :=
  { organizer := 99,
    matchList :=
      [{ round := "Final", matchNumber := 1, player1 := some 1,
         player2 := some 2, status := "completed",
         result := some { winner := some 1, isDraw := false, confirmedBy := some 99 } }],
    status := "active",
    winner := none }

/-- C3.  The knockout claims fail on the code.  For N = 3 the bye
player (index 0 of the shuffled list) appears in NO first-round match:
the first round holds a single match between the other two players,
and the bye player is instead handed an immediately-completed `Final`
crowning them winner before the real semi-final is played.  And the
progression driver, run on a generated-and-completed bracket, parses
the round label `Final` as 0 (`parseInt` yields NaN, defaulted to 0),
finds no matches labelled `0`, collects no winners, and marks the
tournament `completed` with NO winner recorded. -/
theorem knockout_generation_and_driver_broken :
    generateKnockoutFixtures 99 [10, 20, 30] [0] =
      [{ round := "Round 1", matchNumber := 1, player1 := some 20,
         player2 := some 30, status := "scheduled", result := none },
       { round := "Final", matchNumber := 2, player1 := some 10,
         player2 := none, status := "completed",
         result := some { winner := some 10, isDraw := false, confirmedBy := some 99 } }]
    ∧ (generateNextKnockoutRound completedFinalOnly []).status = "completed"
    ∧ (generateNextKnockoutRound completedFinalOnly []).winner = none := by
  refine ⟨by decide, rfl, rfl⟩

/-- C6.  The global-leaderboard claim fails on the code: the
controller passes the object `{ goals, isWinner, isDraw }` where
`Leaderboard.updateStatsForMatch` switches on the strings
`win`/`loss`/`draw`, so a fresh player's single WIN leaves their entry
with `totalMatches = 1` but `wins = 0`, `points = 0`, `winRate = 0`
(the claim demands 1, 3 and 100).  The model-level path with the
string `win` produces exactly the claimed values, and the draw path
double-counts `totalMatches` (object call plus string call). -/
theorem global_leaderboard_win_not_counted :
    controllerGlobalLBUpdate none 7 (some 2) true false =
      { player := 7, points := 0, wins := 0, losses := 0, draws := 0,
        totalMatches := 1, winRate := 0 }
    ∧ updateStatsForMatch (freshLBEntry 7) (MatchResultArg.str winString) =
      { player := 7, points := 3, wins := 1, losses := 0, draws := 0,
        totalMatches := 1, winRate := 100 }
    ∧ (controllerGlobalLBUpdate none 7 (some 1) false true).totalMatches = 2 := by
  refine ⟨?_, ?_, ?_⟩
  all_goals
    simp [controllerGlobalLBUpdate, lbUpdatePlayerStats, updateStatsForMatch,
      leaderboardPreSave, freshLBEntry, winString, lossString, drawString]

/-- A cancelled tournament whose play window is currently open. -/
def cancelledMidWindow : Tournament :=
  { status := "cancelled", tournamentStart := some 10,
    tournamentEnd := some 100, capacity := 8, format := "knockout",
    participants := [] }

/-- C7.  Status transitions are NOT monotonic: the pre-save hook
unconditionally forces `active` once `now ≥ tournamentStart` (and
`now ≤ tournamentEnd`), so ANY save of a `cancelled` — or even a
`completed` — tournament during its play window moves the status
backwards to `active`, which the claim forbids. -/
theorem pre_save_hook_reactivates_cancelled :
    (tournamentPreSave cancelledMidWindow 50).status = "active"
    ∧ (tournamentPreSave { cancelledMidWindow with status := "completed" } 50).status
      = "active" := by
  refine ⟨rfl, rfl⟩

/-- A scheduled match between players 1 and 2 where player 1 has
already submitted and confirmed a score of 2. -/
def sampleAwaitingP2 : MatchDoc :=
  { status := "scheduled",
    player1 := { user := 1, score := some 2, screenshot := none, confirmed := true },
    player2 := { user := 2, score := none, screenshot := none, confirmed := false },
    result := { winner := none, loser := none, isDraw := false,
                confirmedBy := none, confirmedAt := none } }

/-- C4 counterexample.  The claim says an equal-score auto-completion
records NO explicit confirmer (system-confirmed).  But via
`MatchController.submitScore` the second submission with an equal
score stores a completed draw whose `result.confirmedBy` is the
submitting player (id 2 here), because the controller passes
`req.user.id` to `verifyResult` — so the stored confirmer is not
unset. -/
theorem controller_auto_draw_stamps_submitter :
    ((controllerSubmitScoreRun sampleAwaitingP2 2 2 none 7).1.getLast?).map
        (fun v => (v.status, v.result.isDraw, v.result.confirmedBy)) =
      some ("completed", true, some 2)
    ∧ some 2 ≠ (none : Option Nat) := by
  constructor
  · decide
  · simp

/-- C4 (amended).  When a submission causes both slots to be
confirmed: equal scores complete the match as a draw — with the
confirmer left unset by the model method `submitScore` (which invokes
`verifyResult` with no admin), but stamped with the submitting player
by `MatchController.submitScore` (which passes `req.user.id`); with
differing scores both paths store a `disputed` match whose `result`
sub-document is unchanged (no winner recorded). -/
theorem submit_second_confirmation_outcomes
    (m : MatchDoc) (x y : Int) (now : Nat) (hst : m.status ≠ "completed") :
    (m.player2.confirmed = true → m.player2.score = some y →
      (x = y →
        ∃ v, submitScoreRun m slot1 (some x) none now = ([v, v], Except.ok v)
          ∧ v.status = "completed" ∧ v.result.isDraw = true
          ∧ v.result.confirmedBy = none)
      ∧ (x ≠ y →
        ∃ d, submitScoreRun m slot1 (some x) none now = ([d], Except.ok d)
          ∧ d.status = "disputed" ∧ d.result = m.result))
    ∧ (m.player1.confirmed = true → m.player1.score = some y →
      (x = y →
        ∃ v, submitScoreRun m slot2 (some x) none now = ([v, v], Except.ok v)
          ∧ v.status = "completed" ∧ v.result.isDraw = true
          ∧ v.result.confirmedBy = none)
      ∧ (x ≠ y →
        ∃ d, submitScoreRun m slot2 (some x) none now = ([d], Except.ok d)
          ∧ d.status = "disputed" ∧ d.result = m.result))
    ∧ (m.player2.confirmed = true → m.player2.score = some y →
      (x = y →
        ∃ v, controllerSubmitScoreRun m m.player1.user x none now =
            ([v], Except.error errLeaderboardTypeError)
          ∧ v.status = "completed" ∧ v.result.isDraw = true
          ∧ v.result.confirmedBy = some m.player1.user)
      ∧ (x ≠ y →
        ∃ d, controllerSubmitScoreRun m m.player1.user x none now =
            ([d], Except.ok d)
          ∧ d.status = "disputed" ∧ d.result = m.result))
    ∧ (m.player1.confirmed = true → m.player1.score = some y →
      m.player2.user ≠ m.player1.user →
      (x = y →
        ∃ v, controllerSubmitScoreRun m m.player2.user x none now =
            ([v], Except.error errLeaderboardTypeError)
          ∧ v.status = "completed" ∧ v.result.isDraw = true
          ∧ v.result.confirmedBy = some m.player2.user)
      ∧ (x ≠ y →
        ∃ d, controllerSubmitScoreRun m m.player2.user x none now =
            ([d], Except.ok d)
          ∧ d.status = "disputed" ∧ d.result = m.result)) := by
  have hst' : (m.status == "completed") = false := by
    simpa using hst
  refine ⟨?_, ?_, ?_, ?_⟩
  · intro hconf hscore
    constructor
    · intro hxy
      subst hxy
      simp only [submitScoreRun, hst', Bool.false_eq_true, if_false, beq_self_eq_true,
        if_true, afterSubmit, hconf, hscore, and_self, verifyResultRun]
      simp [lt_irrefl]
    · intro hxy
      simp only [submitScoreRun, hst', Bool.false_eq_true, if_false, beq_self_eq_true,
        if_true, afterSubmit, hconf, hscore]
      simp [hxy]
  · intro hconf hscore
    have hs12 : (slot2 == slot1) = false := by decide
    constructor
    · intro hxy
      subst hxy
      simp only [submitScoreRun, hst', Bool.false_eq_true, if_false, hs12,
        beq_self_eq_true, if_true, afterSubmit, hconf, hscore, and_self,
        verifyResultRun]
      simp [lt_irrefl]
    · intro hxy
      simp only [submitScoreRun, hst', Bool.false_eq_true, if_false, hs12,
        beq_self_eq_true, if_true, afterSubmit, hconf, hscore]
      simp [hxy, Ne.symm hxy]
  · intro hconf hscore
    constructor
    · intro hxy
      subst hxy
      simp only [controllerSubmitScoreRun, if_pos rfl, beq_self_eq_true, if_true,
        hconf, hscore, and_self, verifyResultRun]
      simp [lt_irrefl]
    · intro hxy
      simp only [controllerSubmitScoreRun, if_pos rfl, beq_self_eq_true, if_true,
        hconf, hscore]
      simp [hxy]
  · intro hconf hscore hne
    have hs12 : (slot2 == slot1) = false := by decide
    have hne' : ¬ (m.player1.user = m.player2.user) := fun h => hne h.symm
    constructor
    · intro hxy
      subst hxy
      simp only [controllerSubmitScoreRun, hne', if_false, if_pos rfl, hs12,
        beq_self_eq_true, if_true, hconf, hscore, and_self, verifyResultRun]
      simp [hconf, hscore, lt_irrefl, hne']
    · intro hxy
      simp only [controllerSubmitScoreRun, hne', if_false, if_pos rfl, hs12,
        beq_self_eq_true, if_true, hconf, hscore]
      simp [hconf, hscore, hxy, Ne.symm hxy, hne']

/-- C4 witness: the amended theorem applied at a concrete match —
player 1 already confirmed score 2, player 2 submits 2 via the model
method (completed system-confirmed draw) and, on the controller path,
the analogous equal submission stamps player 2 as confirmer. -/
theorem submit_second_confirmation_outcomes_witness :
    sampleAwaitingP2.status ≠ "completed" ∧ sampleAwaitingP2.player1.confirmed = true
    ∧ (∃ v, submitScoreRun sampleAwaitingP2 slot2 (some 2) none 7 = ([v, v], Except.ok v)
        ∧ v.status = "completed" ∧ v.result.isDraw = true
        ∧ v.result.confirmedBy = none) :=
  ⟨by decide, rfl,
    ((submit_second_confirmation_outcomes sampleAwaitingP2 2 2 7
      (by decide)).2.1 rfl rfl).1 rfl⟩

/-- C5.  `verifyResult` fails (before any save) when either score is
null; otherwise it completes the match, stamping the confirmer and the
confirmation time, crediting the strictly-higher scorer as winner and
the other as loser, with `isDraw` exactly when the scores are
equal. -/
theorem verify_result_spec (m : MatchDoc) (c now : Nat) :
    ((m.player1.score = none ∨ m.player2.score = none) →
      verifyResultRun m (some c) now = ([], Except.error errScoresMissing))
    ∧ (∀ s1 s2, m.player1.score = some s1 → m.player2.score = some s2 →
      ∃ m', verifyResultRun m (some c) now = ([m'], Except.ok m')
        ∧ m'.status = "completed"
        ∧ m'.result.confirmedBy = some c
        ∧ m'.result.confirmedAt = some now
        ∧ (s2 < s1 → m'.result.winner = some m.player1.user
            ∧ m'.result.loser = some m.player2.user ∧ m'.result.isDraw = false)
        ∧ (s1 < s2 → m'.result.winner = some m.player2.user
            ∧ m'.result.loser = some m.player1.user ∧ m'.result.isDraw = false)
        ∧ (m'.result.isDraw = true ↔ s1 = s2)) := by
  constructor
  · intro h
    cases hp1 : m.player1.score with
    | none => simp [verifyResultRun, hp1]
    | some s1 =>
      cases hp2 : m.player2.score with
      | none => simp [verifyResultRun, hp1, hp2]
      | some s2 => rcases h with h | h <;> simp_all
  · intro s1 s2 h1 h2
    simp only [verifyResultRun, h1, h2]
    refine ⟨_, rfl, rfl, rfl, rfl, ?_, ?_, ?_⟩
    · intro hgt
      have h1' : s1 > s2 := hgt
      simp [h1']
    · intro hlt
      have h1' : ¬ s1 > s2 := not_lt_of_gt hlt
      simp [h1', hlt]
    · by_cases hgt : s1 > s2
      · simp [hgt]
        omega
      · by_cases hlt : s2 > s1
        · simp [hgt, hlt]
          omega
        · simp [hgt, hlt]
          omega

/-- A match with both scores submitted (3 and 1). -/
def sampleBothScores : MatchDoc :=
  { status := "in_progress",
    player1 := { user := 1, score := some 3, screenshot := none, confirmed := true },
    player2 := { user := 2, score := some 1, screenshot := none, confirmed := true },
    result := { winner := none, loser := none, isDraw := false,
                confirmedBy := none, confirmedAt := none } }

/-- C5 witness: the specification applied to a concrete 3–1 match
verified by admin 5 at time 9. -/
theorem verify_result_spec_witness :
    sampleBothScores.player1.score = some 3
    ∧ sampleBothScores.player2.score = some 1
    ∧ (∃ m', verifyResultRun sampleBothScores (some 5) 9 = ([m'], Except.ok m')
        ∧ m'.status = "completed"
        ∧ m'.result.confirmedBy = some 5
        ∧ m'.result.confirmedAt = some 9
        ∧ ((1 : Int) < 3 → m'.result.winner = some sampleBothScores.player1.user
            ∧ m'.result.loser = some sampleBothScores.player2.user
            ∧ m'.result.isDraw = false)
        ∧ ((3 : Int) < 1 → m'.result.winner = some sampleBothScores.player2.user
            ∧ m'.result.loser = some sampleBothScores.player1.user
            ∧ m'.result.isDraw = false)
        ∧ (m'.result.isDraw = true ↔ (3 : Int) = 1)) :=
  ⟨rfl, rfl, (verify_result_spec sampleBothScores 5 9).2 3 1 rfl rfl⟩

/-- Helper: a failing `verifyResult` saved nothing. -/
theorem verify_error_no_saves (m : MatchDoc) (adminId : Option Nat)
    (now : Nat) (e : String)
    (h : (verifyResultRun m adminId now).2 = Except.error e) :
    (verifyResultRun m adminId now).1 = [] := by
  cases hp1 : m.player1.score with
  | none => simp [verifyResultRun, hp1]
  | some s1 =>
    cases hp2 : m.player2.score with
    | none => simp [verifyResultRun, hp1, hp2]
    | some s2 => simp [verifyResultRun, hp1, hp2] at h

/-- Helper: a failing post-mutation phase of `submitScore` saved
nothing (the only possible failure is the nested `verifyResult`
throwing before its save). -/
theorem afterSubmit_error (m : MatchDoc) (now : Nat) (e : String)
    (h : (afterSubmit m now).2 = Except.error e) : (afterSubmit m now).1 = [] := by
  by_cases hc : m.player1.confirmed ∧ m.player2.confirmed
  · by_cases hs : m.player1.score = m.player2.score
    · cases hv : verifyResultRun m none now with
      | mk saves out =>
        cases out with
        | ok v => simp [afterSubmit, hc, hs, hv] at h
        | error e2 =>
          have h1 := verify_error_no_saves m none now e2 (by rw [hv])
          rw [hv] at h1
          simp [afterSubmit, hc, hs, hv, h1]
    · simp [afterSubmit, hc, hs] at h
  · simp [afterSubmit, hc] at h

/-- C8.  Whenever the model-level `submitScore` or `verifyResult`
fails (for any reason), nothing was passed to `save()`: the stored
match state is entirely unchanged — every throw happens before the
single persistence point. -/
theorem error_leaves_storage_unchanged
    (m : MatchDoc) (player : String) (score : Option Int)
    (scr : Option String) (now : Nat) (adminId : Option Nat) (e : String) :
    ((submitScoreRun m player score scr now).2 = Except.error e →
      (submitScoreRun m player score scr now).1 = [])
    ∧ ((verifyResultRun m adminId now).2 = Except.error e →
      (verifyResultRun m adminId now).1 = []) := by
  constructor
  · intro h
    by_cases hc : m.status == "completed"
    · simp [submitScoreRun, hc]
    · by_cases hp1 : player == slot1
      · simp only [submitScoreRun, hc, hp1, Bool.false_eq_true, if_false, if_true] at h ⊢
        exact afterSubmit_error _ _ _ h
      · by_cases hp2 : player == slot2
        · simp only [submitScoreRun, hc, hp1, hp2, Bool.false_eq_true, if_false, if_true] at h ⊢
          exact afterSubmit_error _ _ _ h
        · simp [submitScoreRun, hc, hp1, hp2]
  · exact verify_error_no_saves m adminId now e

/-- A completed match (submissions must be rejected). -/
def sampleCompleted : MatchDoc :=
  { status := "completed",
    player1 := { user := 1, score := some 2, screenshot := none, confirmed := true },
    player2 := { user := 2, score := some 0, screenshot := none, confirmed := true },
    result := { winner := some 1, loser := some 2, isDraw := false,
                confirmedBy := some 9, confirmedAt := some 9 } }

/-- C8 witness: submitting to a completed match errors and saves
nothing. -/
theorem error_leaves_storage_unchanged_witness :
    (submitScoreRun sampleCompleted slot1 (some 1) none 0).2 =
      Except.error errAlreadyCompleted
    ∧ (submitScoreRun sampleCompleted slot1 (some 1) none 0).1 = [] :=
  ⟨rfl, (error_leaves_storage_unchanged sampleCompleted slot1 (some 1) none 0
      none errAlreadyCompleted).1 rfl⟩

/-- C9 counterexample.  The claim's table is keyed by the
remaining-player count alone (4 → `Semi-Finals`) and sends every other
count to `Round N`.  But `getRoundName` also keys on the round number:
round 2 with 4 remaining players yields `Final`, not `Semi-Finals`
(this input is reached by an 8-player bracket), and counts above 4
outside the table append a `(Top N)` suffix. -/
theorem round_name_count_table_refuted :
    getRoundName 2 4 = "Final" ∧ "Final" ≠ "Semi-Finals"
    ∧ getRoundName 1 5 = "Round 1 (Top 5)" ∧ "Round 1 (Top 5)" ≠ "Round 1" := by
  refine ⟨rfl, by decide, by decide, by decide⟩

/-- C9 (amended).  The label table actually implemented: counts 2, 4,
8 and 16 use the knockout names indexed by the round number (later
rounds fall back to `Final`), other counts up to 4 give `Round N`, and
counts above 4 give `Round N (Top count)`. -/
theorem round_name_table (r c : Nat) :
    (c = 2 → getRoundName r c = "Final")
    ∧ (c = 4 → getRoundName r c =
        if r = 1 then "Semi-Finals" else "Final")
    ∧ (c = 8 → getRoundName r c =
        if r = 1 then "Quarter-Finals"
        else if r = 2 then "Semi-Finals" else "Final")
    ∧ (c = 16 → getRoundName r c =
        if r = 1 then "Round of 16"
        else if r = 2 then "Quarter-Finals"
        else if r = 3 then "Semi-Finals" else "Final")
    ∧ (c ≠ 2 → c ≠ 4 → c ≤ 4 → getRoundName r c = s!"Round {r}")
    ∧ (c ≠ 8 → c ≠ 16 → 4 < c → getRoundName r c = s!"Round {r} (Top {c})") := by
  refine ⟨?_, ?_, ?_, ?_, ?_, ?_⟩ <;> intro h
  · simp [getRoundName, h]
  · simp [getRoundName, h]
  · simp [getRoundName, h]
  · simp [getRoundName, h]
  · intro h4 hle
    have h8 : c ≠ 8 := by omega
    have h16 : c ≠ 16 := by omega
    simp [getRoundName, h, h4, h8, h16, hle]
  · intro h16 hgt
    have h2 : c ≠ 2 := by omega
    have h4 : c ≠ 4 := by omega
    have hle : ¬ c ≤ 4 := by omega
    by_cases h8 : c ≤ 8 <;> simp [getRoundName, h2, h4, h, h16, hle, h8]

/-- C9 witness: the amended table applied at concrete inputs. -/
theorem round_name_table_witness :
    getRoundName 2 4 = (if 2 = 1 then "Semi-Finals" else "Final")
    ∧ getRoundName 1 3 = "Round 1" := by
  refine ⟨(round_name_table 2 4).2.1 rfl, ?_⟩
  have h := (round_name_table 1 3).2.2.2.2.1 (by decide) (by decide) (by decide)
  simpa using h

/-- C10.  `addParticipant` rejects a player already in the participant
list — leaving the stored list unchanged, since the throw precedes the
save — and a successful call appends exactly one fresh `registered`
entry (with the next seed and zeroed stats) for a player who was not
previously registered. -/
theorem add_participant_spec (t : Tournament) (uid : Nat) :
    ((t.participants.any fun p => p.player = uid) = true →
      addParticipant t uid = Except.error errAlreadyRegistered)
    ∧ (∀ t', addParticipant t uid = Except.ok t' →
      t'.participants = t.participants ++
        [{ player := uid, status := "registered",
           seed := participantCount t + 1, stats := zeroPStats }]
      ∧ (t.participants.any fun p => p.player = uid) = false) := by
  constructor
  · intro h
    simp [addParticipant, h]
  · intro t' h
    by_cases hdup : (t.participants.any fun p => p.player = uid) = true
    · simp [addParticipant, hdup] at h
    · by_cases hful : participantCount t ≥ t.capacity
      · simp [addParticipant, hdup, hful] at h
      · simp only [addParticipant, hdup, hful, Bool.false_eq_true, if_false,
          if_true, Except.ok.injEq] at h
        constructor
        · rw [← h]
        · simpa using hdup

/-- A two-entry tournament used to witness both branches of the
`addParticipant` specification. -/
def sampleTournament : Tournament :=
  { status := "upcoming", tournamentStart := none, tournamentEnd := none,
    capacity := 4, format := "knockout",
    participants :=
      [{ player := 1, status := "registered", seed := 1, stats := zeroPStats }] }

/-- C10 witness: re-registering player 1 errors; registering player 2
appends exactly one entry. -/
theorem add_participant_spec_witness :
    addParticipant sampleTournament 1 = Except.error errAlreadyRegistered
    ∧ (addParticipant sampleTournament 2 = Except.ok
        { sampleTournament with participants := sampleTournament.participants ++
          [{ player := 2, status := "registered", seed := 2, stats := zeroPStats }] }) := by
  constructor
  · exact (add_participant_spec sampleTournament 1).1 rfl
  · rfl

end EFootball
